import Mathlib

/-!
Verification of the cordra-mcp adapter: a shallow embedding of the
repository client (`src/mcp_cordra/client.py`), the configuration
validator (`src/cordra_mcp/config.py`) and the schema resource registrar
(`src/cordra_mcp/server.py`), together with theorems settling the frozen
claims about them.

JSON documents are modelled as values of an inductive `Json` type
(`response.json()` is modelled as the decoded value); Python dicts are
association lists keyed by strings; a raised Python exception is an
explicit constructor of the result type.
-/

/-- Decoded JSON value. Numbers are modelled as integers: every numeric
field the adapter touches (`size`, HTTP-ish counters) is integral. -/
inductive Json where
  | null : Json
  | bool (b : Bool) : Json
  | num (n : Int) : Json
  | str (s : String) : Json
  | arr (elems : List Json) : Json
  | obj (fields : List (String × Json)) : Json

/-- A JSON object body, as a Python dict: ordered association list. -/
abbrev JsonObj := List (String × Json)

/-- Python `d[k]` / `k in d` on a dict decoded from JSON: first binding wins
(decoded Python dicts have unique keys, so the choice is immaterial). -/
def lookupField : JsonObj → String → Option Json
  | [], _ => none
  | (k, v) :: rest, key => if k = key then some v else lookupField rest key

/-- Python truthiness (`if not schema_name`) on a decoded JSON value:
`None`, `False`, `0`, `""`, `[]` and `{}` are falsy, everything else truthy. -/
def jsonTruthy : Json → Bool
  | .null => false
  | .bool b => b
  | .num n => n != 0
  | .str s => !s.isEmpty
  | .arr elems => !elems.isEmpty
  | .obj fields => !fields.isEmpty

/-- The client error taxonomy of `client.py`: `CordraNotFoundError`,
`CordraAuthenticationError`, `CordraClientError`, each carrying its
message string. -/
inductive CordraError where
  | notFound (msg : String) : CordraError
  | authenticationFailed (msg : String) : CordraError
  | clientError (msg : String) : CordraError

/-- An HTTP response as the client sees it: status code plus decoded
JSON body. -/
structure HttpResponse where
  status : Nat
  body : Json

/-- Outcome of `session.get`: either a response, or a
`requests.RequestException` (connection failure, timeout, ...) carrying
its message. -/
inductive HttpOutcome where
  | response (r : HttpResponse) : HttpOutcome
  | transportError (msg : String) : HttpOutcome

/-- Result of a client call: a value, a raised `CordraError`, or a raised
exception outside the Cordra taxonomy (e.g. a pydantic `ValidationError`
while building the `DigitalObject`). -/
inductive ClientOutcome (α : Type) where
  | ok (a : α) : ClientOutcome α
  | cordraError (e : CordraError) : ClientOutcome α
  | otherError : ClientOutcome α

/-- `requests.Response.ok`: true iff `raise_for_status` would not raise,
i.e. iff the status code is outside `[400, 600)`. -/
def responseOk (r : HttpResponse) : Bool :=
  decide (r.status < 400) || decide (600 ≤ r.status)

/-- `CordraClient._handle_http_error`: classify a non-ok status code.
In the source this raises; here it returns the raised error. -/
def handle_http_error (status : Nat) (context : String) : CordraError :=
  if status = 404 then
    .notFound (context ++ ": Resource not found")
  else if status = 401 ∨ status = 403 then
    .authenticationFailed (context ++ ": Authentication failed (HTTP " ++ toString status ++ ")")
  else if 500 ≤ status then
    .clientError (context ++ ": Server error (HTTP " ++ toString status ++ ")")
  else
    .clientError (context ++ ": HTTP error " ++ toString status)

/-- The `DigitalObject` pydantic model: `id`/`type`/`content` required,
`metadata`/`acl`/`payloads` optional with default `None`. `content`,
`metadata`, `acl` are dicts; `payloads` is a list of dicts. -/
structure DigitalObject where
  id : String
  type : String
  content : JsonObj
  metadata : Option JsonObj
  acl : Option JsonObj
  payloads : Option (List JsonObj)

/-- pydantic validation of a `dict[str, Any]` field value. -/
def asObj : Json → Option JsonObj
  | .obj fields => some fields
  | _ => none

/-- pydantic validation of a `dict[str, Any] | None` field fed from
`d.get(k)`: a missing key or JSON `null` is `None`; a dict is accepted;
anything else fails validation. -/
def optionalObjField (fields : JsonObj) (key : String) : Option (Option JsonObj) :=
  match lookupField fields key with
  | none => some none
  | some .null => some none
  | some (.obj o) => some (some o)
  | some _ => none

/-- pydantic validation of `list[dict[str, Any]]` elements. -/
def decodeObjs : List Json → Option (List JsonObj)
  | [] => some []
  | x :: xs =>
    match x with
    | .obj o => (decodeObjs xs).map (o :: ·)
    | _ => none

/-- The `DigitalObject(...)` construction inside `get_object`:
`id` is the requested id, `type` is `body.get('type', '')`, `content` is
`body.get('content', body)`, the optional fields are `body.get(...)`.
`none` models the uncaught exception paths: the body is not a dict
(`AttributeError` on `.get`) or a field fails pydantic validation. -/
def parseDigitalObject (objectId : String) (body : Json) : Option DigitalObject :=
  match body with
  | .obj fields => do
    let ty ←
      match lookupField fields "type" with
      | none => some ""
      | some (.str s) => some s
      | some _ => none
    let content ←
      match lookupField fields "content" with
      | some v => asObj v
      | none => some fields
    let metadata ← optionalObjField fields "metadata"
    let acl ← optionalObjField fields "acl"
    let payloads ←
      match lookupField fields "payloads" with
      | none => some none
      | some .null => some none
      | some (.arr xs) => (decodeObjs xs).map some
      | some _ => none
    some ⟨objectId, ty, content, metadata, acl, payloads⟩
  | _ => none

/-- An HTTP request the client issues: URL and query parameters. -/
structure HttpRequest where
  url : String
  params : List (String × String)

/-- The requests issued by one `get_object` call: a single
`session.get(f"{cordra_url}/objects/{object_id}", params={"full": "true"})`.
`cordraUrl` is the configured base URL of the repository (the client reads
it from its configuration object). -/
def getObjectRequests (cordraUrl objectId : String) : List HttpRequest :=
  [⟨cordraUrl ++ "/objects/" ++ objectId, [("full", "true")]⟩]

/-- `CordraClient.get_object`, as a function of the transport outcome of
its single request. A non-ok response raises via `handle_http_error`
(these Cordra errors are not `requests.RequestException`s, so the
`except` clause does not catch them); a transport error is re-raised as
`CordraClientError`; on an ok response the body is parsed into a
`DigitalObject`. -/
def get_object (objectId : String) (outcome : HttpOutcome) : ClientOutcome DigitalObject :=
  match outcome with
  | .transportError msg =>
    .cordraError (.clientError ("Failed to retrieve object " ++ objectId ++ ": " ++ msg))
  | .response r =>
    if responseOk r then
      match parseDigitalObject objectId r.body with
      | some o => .ok o
      | none => .otherError
    else
      .cordraError (handle_http_error r.status ("Failed to retrieve object " ++ objectId))

/-- The requests issued by one `find` call: a single
`session.get(f"{cordra_url}/search", params={"query": query})`. -/
def findRequests (cordraUrl query : String) : List HttpRequest :=
  [⟨cordraUrl ++ "/search", [("query", query)]⟩]

/-- `CordraClient.find`, as a function of the transport outcome of its
single request. On an ok response: if the body is a dict containing a
`results` key, the value stored there is returned as-is; otherwise the
empty list is returned. -/
def find (query : String) (outcome : HttpOutcome) : ClientOutcome Json :=
  match outcome with
  | .transportError msg =>
    .cordraError (.clientError ("Failed to search with query \x27" ++ query ++ "\x27: " ++ msg))
  | .response r =>
    if responseOk r then
      match r.body with
      | .obj fields =>
        match lookupField fields "results" with
        | some v => .ok v
        | none => .ok (.arr [])
      | _ => .ok (.arr [])
    else
      .cordraError (handle_http_error r.status ("Failed to search with query \x27" ++ query ++ "\x27"))

/-- Modelled from the spec: `CordraClient.get_schema` is called by
`create_schema_resource` in `server.py` but its definition is not among
the provided sources. The spec describes it as "semantically `get_object`
scoped to the repository's schema namespace; same error mapping", so it
is modelled as `get_object` applied to the schema's id inside that
namespace, `schemaNs ++ schemaName`, where `schemaNs` is the repository's
schema namespace. -/
def get_schema (schemaNs schemaName : String) (outcome : HttpOutcome) :
    ClientOutcome DigitalObject :=
  get_object (schemaNs ++ schemaName) outcome

/-- A Python exception escaping part of `register_schema_resources`
before its final `except Exception` clause: a raised `CordraError` from
`find`, an `AttributeError`/`TypeError` from name extraction or
iteration, a failure inside `mcp.add_resource`, or any other exception. -/
inductive PyError where
  | cordra (e : CordraError) : PyError
  | attributeError : PyError
  | typeError : PyError
  | resourceError : PyError
  | otherEx : PyError

/-- Result of `schema.get("content", {}).get("name")` plus the
`if not schema_name` guard, for one discovery record:
`name n` when a truthy name was found, `skip` when the record is skipped
(missing or falsy name), `error` when the expression raises
(`AttributeError`: the record or its `content` value is not a dict). -/
inductive ExtractResult where
  | name (n : Json) : ExtractResult
  | skip : ExtractResult
  | error : ExtractResult

/-- Name extraction for one discovery record, mirroring
`schema.get("content", {}).get("name")`: a missing `content` key defaults
to the empty dict; a non-dict record or non-dict `content` value raises. -/
def extractSchemaName (schema : Json) : ExtractResult :=
  match schema with
  | .obj fields =>
    match lookupField fields "content" with
    | none => .skip
    | some (.obj contentFields) =>
      match lookupField contentFields "name" with
      | none => .skip
      | some v => if jsonTruthy v then .name v else .skip
    | some _ => .error
  | _ => .error

/-- The registration loop of `register_schema_resources` over the
discovery records. `addOk n` models whether `mcp.add_resource` succeeds
for the resource built from name `n`. Returns the registration table
(the names registered so far, in order) together with the exception, if
any, that aborted the loop; a raised exception leaves the
already-registered resources in place and stops processing. -/
def registerLoop (addOk : Json → Bool) :
    List Json → List Json → List Json × Option PyError
  | [], acc => (acc, none)
  | schema :: rest, acc =>
    match extractSchemaName schema with
    | .skip => registerLoop addOk rest acc
    | .error => (acc, some .attributeError)
    | .name n =>
      if addOk n then registerLoop addOk rest (acc ++ [n])
      else (acc, some .resourceError)

/-- The body of `register_schema_resources` up to (not including) its
`except Exception` clause, as a function of the outcome of
`find("type:Schema")`: final registration table plus the escaping
exception, if any. A raised `CordraError` escapes the `find` call with
nothing registered; iterating a non-list result raises before any
registration (`TypeError` for scalars; `AttributeError` from `.get` on
the elements of a non-empty string or on the keys of a non-empty dict;
an empty string or dict iterates zero times and succeeds). -/
def registerBody (findOutcome : ClientOutcome Json) (addOk : Json → Bool) :
    List Json × Option PyError :=
  match findOutcome with
  | .cordraError e => ([], some (.cordra e))
  | .otherError => ([], some .otherEx)
  | .ok (.arr schemas) => registerLoop addOk schemas []
  | .ok (.str s) => if s.isEmpty then ([], none) else ([], some .attributeError)
  | .ok (.obj fields) => if fields.isEmpty then ([], none) else ([], some .attributeError)
  | .ok _ => ([], some .typeError)

/-- `register_schema_resources` in `src/cordra_mcp/server.py`: the body
wrapped in `try ... except Exception: logger.warning(...)`, so every
exception is swallowed and the registration table reached by the body is
kept. -/
def register_schema_resources (findOutcome : ClientOutcome Json) (addOk : Json → Bool) :
    List Json × Option PyError :=
  ((registerBody findOutcome addOk).1, none)

/-- The valid log levels of `CordraConfig.validate_log_level`
(`valid_levels` in the source; a set there, so membership order is
immaterial). -/
def validLogLevels : List String := ["DEBUG", "INFO", "WARNING", "ERROR", "CRITICAL"]

/-- Python `str.upper()` (character-wise uppercasing; the level names are
ASCII, so ASCII casing suffices). -/
def pyUpper (s : String) : String :=
  ⟨s.data.map Char.toUpper⟩

/-- Python `str.strip()`: drop leading and trailing whitespace. -/
def pyStrip (s : String) : String :=
  ⟨((s.data.dropWhile Char.isWhitespace).reverse.dropWhile Char.isWhitespace).reverse⟩

/-- `CordraConfig.validate_log_level`: uppercase and strip the supplied
value, accept (returning the normalized value) iff the result is a valid
level, otherwise raise `ValueError`. The source's error message
enumerates the levels in a Python set's arbitrary iteration order; here a
fixed order is used. -/
def validate_log_level (v : String) : Except String String :=
  let levelStr := pyStrip (pyUpper v)
  if levelStr ∈ validLogLevels then .ok levelStr
  else .error ("Invalid log level \x27" ++ v ++ "\x27. Must be one of: DEBUG, INFO, WARNING, ERROR, CRITICAL")

/-- Serialization of an optional dict field by `model_dump` + `json.dumps`:
`None` becomes JSON `null`. -/
def optObjJson : Option JsonObj → Json
  | none => .null
  | some o => .obj o

/-- `json.dumps(digital_object.model_dump())` as in `get_cordra_object`:
the six fields in declaration order; absent optional fields serialize as
`null`. -/
def DigitalObject.toJson (o : DigitalObject) : Json :=
  .obj [("id", .str o.id),
        ("type", .str o.type),
        ("content", .obj o.content),
        ("metadata", optObjJson o.metadata),
        ("acl", optObjJson o.acl),
        ("payloads", match o.payloads with
                     | none => .null
                     | some ps => .arr (ps.map Json.obj))]

/-- Parsing a JSON document back into a `DigitalObject` (pydantic
validation of the six fields): `id`/`type` required strings, `content` a
required dict, the optional fields `null`-or-dict (`payloads`:
`null`-or-list-of-dicts). -/
def DigitalObject.fromJson (j : Json) : Option DigitalObject :=
  match j with
  | .obj fields => do
    let id ←
      match lookupField fields "id" with
      | some (.str s) => some s
      | _ => none
    let ty ←
      match lookupField fields "type" with
      | some (.str s) => some s
      | _ => none
    let content ←
      match lookupField fields "content" with
      | some v => asObj v
      | none => none
    let metadata ← optionalObjField fields "metadata"
    let acl ← optionalObjField fields "acl"
    let payloads ←
      match lookupField fields "payloads" with
      | none => some none
      | some .null => some none
      | some (.arr xs) => (decodeObjs xs).map some
      | some _ => none
    some ⟨id, ty, content, metadata, acl, payloads⟩
  | _ => none

/-- Field access on a serialized JSON document (dispatching on it being
an object). -/
def lookupJsonField (j : Json) (key : String) : Option Json :=
  match j with
  | .obj fields => lookupField fields key
  | _ => none

lemma responseOk_true {s : Nat} {b : Json} (h : s < 400) :
    responseOk ⟨s, b⟩ = true := by
  simp only [responseOk, Bool.or_eq_true, decide_eq_true_eq]
  omega

lemma responseOk_false {s : Nat} {b : Json} (h4 : 400 ≤ s) (h6 : s < 600) :
    responseOk ⟨s, b⟩ = false := by
  simp only [responseOk, Bool.or_eq_false_iff, decide_eq_false_iff_not]
  omega

lemma get_object_404 (objectId : String) (b : Json) :
    get_object objectId (.response ⟨404, b⟩) =
      .cordraError (.notFound ("Failed to retrieve object " ++ objectId ++ ": Resource not found")) := rfl

lemma get_object_auth (objectId : String) (s : Nat) (b : Json) (h : s = 401 ∨ s = 403) :
    get_object objectId (.response ⟨s, b⟩) =
      .cordraError (.authenticationFailed
        ("Failed to retrieve object " ++ objectId ++ ": Authentication failed (HTTP " ++ toString s ++ ")")) := by
  rcases h with rfl | rfl <;> rfl

lemma get_object_client_error (objectId : String) (s : Nat) (b : Json)
    (h4 : 400 ≤ s) (h6 : s < 600) (hn1 : s ≠ 401) (hn3 : s ≠ 403) (hn4 : s ≠ 404) :
    ∃ m, get_object objectId (.response ⟨s, b⟩) = .cordraError (.clientError m) := by
  have hok : responseOk ⟨s, b⟩ = false := responseOk_false h4 h6
  simp only [get_object, hok, Bool.false_eq_true, if_false]
  unfold handle_http_error
  rw [if_neg hn4, if_neg (by tauto : ¬(s = 401 ∨ s = 403))]
  by_cases h5 : 500 ≤ s
  · rw [if_pos h5]; exact ⟨_, rfl⟩
  · rw [if_neg h5]; exact ⟨_, rfl⟩

lemma get_object_transport (objectId msg : String) :
    get_object objectId (.transportError msg) =
      .cordraError (.clientError ("Failed to retrieve object " ++ objectId ++ ": " ++ msg)) := rfl

lemma get_object_ok_status_no_cordra_error (objectId : String) (s : Nat) (b : Json)
    (h : s < 400) (e : CordraError) :
    get_object objectId (.response ⟨s, b⟩) ≠ .cordraError e := by
  have hok : responseOk ⟨s, b⟩ = true := responseOk_true h
  simp only [get_object, hok, if_true]
  cases parseDigitalObject objectId b <;> simp

/-- C1: for every object id, `get_object` fails with `NotFound` carrying
the requested id on a 404, with `AuthenticationFailed` on 401/403, with
`ClientError` on every other status in `[400, 600)` and on every
transport-level exception; on any response whose status is below 400 —
which includes every 2xx, but also 1xx and 3xx responses, since the code
tests `response.ok` — it fails with none of the three. -/
theorem get_object_error_classification (objectId : String) (s : Nat) (b : Json) (msg : String) :
    (get_object objectId (.response ⟨404, b⟩) =
      .cordraError (.notFound ("Failed to retrieve object " ++ objectId ++ ": Resource not found"))) ∧
    (s = 401 ∨ s = 403 →
      get_object objectId (.response ⟨s, b⟩) =
        .cordraError (.authenticationFailed
          ("Failed to retrieve object " ++ objectId ++ ": Authentication failed (HTTP " ++ toString s ++ ")"))) ∧
    (400 ≤ s → s < 600 → s ≠ 401 → s ≠ 403 → s ≠ 404 →
      ∃ m, get_object objectId (.response ⟨s, b⟩) = .cordraError (.clientError m)) ∧
    (get_object objectId (.transportError msg) =
      .cordraError (.clientError ("Failed to retrieve object " ++ objectId ++ ": " ++ msg))) ∧
    (s < 400 → ∀ e, get_object objectId (.response ⟨s, b⟩) ≠ .cordraError e) :=
  ⟨get_object_404 objectId b,
   get_object_auth objectId s b,
   get_object_client_error objectId s b,
   get_object_transport objectId msg,
   fun h e => get_object_ok_status_no_cordra_error objectId s b h e⟩

theorem get_object_error_classification_witness :
    get_object "test/1" (.response ⟨403, Json.obj []⟩) =
      .cordraError (.authenticationFailed
        ("Failed to retrieve object " ++ "test/1" ++ ": Authentication failed (HTTP " ++ toString 403 ++ ")")) :=
  (get_object_error_classification "test/1" 403 (Json.obj []) "m").2.1 (Or.inr rfl)

/-- C1 counterexample: a 304 response is not 2xx, is none of 404/401/403,
yet `get_object` does not fail with `ClientError` — the code tests
`response.ok`, which is true for every status below 400, so it happily
parses the body and returns a `DigitalObject`. -/
theorem get_object_304_no_client_error :
    get_object "test/1" (.response ⟨304, Json.obj []⟩) =
      .ok ⟨"test/1", "", [], none, none, none⟩ ∧ (304 < 200 ∨ 300 ≤ 304) :=
  ⟨rfl, by omega⟩

/-- C2: `get_schema` is `get_object` applied to the schema's id inside
the repository's schema namespace, and classifies failures under exactly
the rules of `get_object`: `NotFound` on 404, `AuthenticationFailed` on
401/403, `ClientError` on every other error status and on transport
exceptions, and none of the three on an ok response. -/
theorem get_schema_delegates_to_get_object (schemaNs schemaName : String)
    (outcome : HttpOutcome) (s : Nat) (b : Json) (msg : String) :
    (get_schema schemaNs schemaName outcome = get_object (schemaNs ++ schemaName) outcome) ∧
    (get_schema schemaNs schemaName (.response ⟨404, b⟩) =
      .cordraError (.notFound
        ("Failed to retrieve object " ++ (schemaNs ++ schemaName) ++ ": Resource not found"))) ∧
    (s = 401 ∨ s = 403 →
      get_schema schemaNs schemaName (.response ⟨s, b⟩) =
        .cordraError (.authenticationFailed
          ("Failed to retrieve object " ++ (schemaNs ++ schemaName) ++
            ": Authentication failed (HTTP " ++ toString s ++ ")"))) ∧
    (400 ≤ s → s < 600 → s ≠ 401 → s ≠ 403 → s ≠ 404 →
      ∃ m, get_schema schemaNs schemaName (.response ⟨s, b⟩) = .cordraError (.clientError m)) ∧
    (get_schema schemaNs schemaName (.transportError msg) =
      .cordraError (.clientError
        ("Failed to retrieve object " ++ (schemaNs ++ schemaName) ++ ": " ++ msg))) ∧
    (s < 400 → ∀ e, get_schema schemaNs schemaName (.response ⟨s, b⟩) ≠ .cordraError e) :=
  ⟨rfl,
   get_object_404 (schemaNs ++ schemaName) b,
   get_object_auth (schemaNs ++ schemaName) s b,
   get_object_client_error (schemaNs ++ schemaName) s b,
   get_object_transport (schemaNs ++ schemaName) msg,
   fun h e => get_object_ok_status_no_cordra_error (schemaNs ++ schemaName) s b h e⟩

theorem get_schema_delegates_witness :
    get_schema "test/schemas/" "User" (.response ⟨404, Json.obj []⟩) =
      .cordraError (.notFound
        ("Failed to retrieve object " ++ ("test/schemas/" ++ "User") ++ ": Resource not found")) :=
  (get_schema_delegates_to_get_object "test/schemas/" "User"
    (.response ⟨404, Json.obj []⟩) 200 (Json.obj []) "m").2.1

/-- C3: one `get_object` call issues exactly one GET request, to
`{cordra_url}/objects/{object_id}` with the single query parameter
`full=true`; on a 2xx response it parses the JSON body into a
`DigitalObject` and returns it. -/
theorem get_object_request_shape (cordraUrl objectId : String) (s : Nat) (body : Json)
    (o : DigitalObject) :
    (getObjectRequests cordraUrl objectId =
      [⟨cordraUrl ++ "/objects/" ++ objectId, [("full", "true")]⟩]) ∧
    ((getObjectRequests cordraUrl objectId).length = 1) ∧
    (200 ≤ s → s < 300 → parseDigitalObject objectId body = some o →
      get_object objectId (.response ⟨s, body⟩) = .ok o) := by
  refine ⟨rfl, rfl, fun h2 h3 hp => ?_⟩
  have hok : responseOk ⟨s, body⟩ = true := responseOk_true (by omega)
  simp only [get_object, hok, if_true, hp]

theorem get_object_request_shape_witness :
    get_object "test/1"
        (.response ⟨200, Json.obj [("type", Json.str "Person"),
                                   ("content", Json.obj [("name", Json.str "J")])]⟩) =
      .ok ⟨"test/1", "Person", [("name", Json.str "J")], none, none, none⟩ :=
  (get_object_request_shape "https://localhost:8443" "test/1" 200
    (Json.obj [("type", Json.str "Person"), ("content", Json.obj [("name", Json.str "J")])])
    ⟨"test/1", "Person", [("name", Json.str "J")], none, none, none⟩).2.2
    (by omega) (by omega) rfl

/-- C4: on a 2xx search response whose body is a JSON object, `find`
returns exactly the value stored under the `results` key (in particular
a results array is returned in order), and returns the empty list
without failing when the key is absent. -/
theorem find_results_extraction (query : String) (s : Nat) (fields : JsonObj)
    (h2 : 200 ≤ s) (h3 : s < 300) :
    (∀ v, lookupField fields "results" = some v →
      find query (.response ⟨s, .obj fields⟩) = .ok v) ∧
    (lookupField fields "results" = none →
      find query (.response ⟨s, .obj fields⟩) = .ok (.arr [])) := by
  have hok : responseOk ⟨s, Json.obj fields⟩ = true := responseOk_true (by omega)
  constructor
  · intro v hv
    simp only [find, hok, if_true, hv]
  · intro hv
    simp only [find, hok, if_true, hv]

theorem find_results_extraction_witness :
    (find "type:Schema"
        (.response ⟨200, Json.obj [("results",
          Json.arr [Json.obj [("name", Json.str "User")],
                    Json.obj [("name", Json.str "Project")]]), ("size", Json.num 2)]⟩) =
      .ok (Json.arr [Json.obj [("name", Json.str "User")],
                     Json.obj [("name", Json.str "Project")]])) ∧
    (find "type:Schema" (.response ⟨200, Json.obj [("size", Json.num 0)]⟩) =
      .ok (Json.arr [])) :=
  ⟨(find_results_extraction "type:Schema" 200
      [("results", Json.arr [Json.obj [("name", Json.str "User")],
                             Json.obj [("name", Json.str "Project")]]), ("size", Json.num 2)]
      (by omega) (by omega)).1 _ rfl,
   (find_results_extraction "type:Schema" 200 [("size", Json.num 0)]
      (by omega) (by omega)).2 rfl⟩

/-- C10: on a 2xx search response whose body is not a JSON object (an
array, string, number, boolean or null), `find` returns the empty list
rather than failing. -/
theorem find_non_object_body (query : String) (s : Nat) (b : Json)
    (h2 : 200 ≤ s) (h3 : s < 300) (hb : asObj b = none) :
    find query (.response ⟨s, b⟩) = .ok (.arr []) := by
  have hok : responseOk ⟨s, b⟩ = true := responseOk_true (by omega)
  cases b <;> simp only [find, hok, if_true]
  simp [asObj] at hb

theorem find_non_object_body_witness :
    find "type:Schema" (.response ⟨200, Json.arr [Json.num 1, Json.num 2]⟩) =
      .ok (.arr []) :=
  find_non_object_body "type:Schema" 200 (Json.arr [Json.num 1, Json.num 2])
    (by omega) (by omega) rfl

/-- C5: on the discovery results
`[{"content":{"name":"User"}}, {"content":{}}, {"content":{"name":"Project"}}]`
(with `mcp.add_resource` succeeding), exactly the two resources `User`
and `Project` are registered, the nameless record is skipped, and no
exception escapes. -/
theorem register_schema_resources_example :
    register_schema_resources
      (.ok (.arr [Json.obj [("content", Json.obj [("name", Json.str "User")])],
                  Json.obj [("content", Json.obj [])],
                  Json.obj [("content", Json.obj [("name", Json.str "Project")])]]))
      (fun _ => true) = ([Json.str "User", Json.str "Project"], none) := rfl

/-- C6: when the discovery call `find("type:Schema")` raises a
`CordraClientError`, `register_schema_resources` completes normally (no
exception escapes) with zero resources registered. -/
theorem register_schema_resources_discovery_failure (msg : String) (addOk : Json → Bool) :
    register_schema_resources (.cordraError (.clientError msg)) addOk = ([], none) := rfl

/-- One loop iteration succeeds: the record is skipped, or its name is
extracted and `mcp.add_resource` succeeds. -/
def stepSucceeds (addOk : Json → Bool) (schema : Json) : Bool :=
  match extractSchemaName schema with
  | .skip => true
  | .name n => addOk n
  | .error => false

/-- One loop iteration raises: name extraction raises, or a name is
extracted and `mcp.add_resource` raises on it. -/
def stepFails (addOk : Json → Bool) (schema : Json) : Bool :=
  match extractSchemaName schema with
  | .skip => false
  | .name n => !addOk n
  | .error => true

/-- The name a record contributes to the registration table, if any. -/
def registeredName (schema : Json) : Option Json :=
  match extractSchemaName schema with
  | .name n => some n
  | _ => none

lemma registerLoop_abort (addOk : Json → Bool) (b : Json) (hb : stepFails addOk b = true)
    (ys : List Json) :
    ∀ (xs : List Json) (acc : List Json), xs.all (stepSucceeds addOk) = true →
      (registerLoop addOk (xs ++ b :: ys) acc).1 = acc ++ xs.filterMap registeredName := by
  intro xs
  induction xs with
  | nil =>
    intro acc _
    simp only [List.nil_append, List.filterMap_nil, List.append_nil]
    cases hx : extractSchemaName b with
    | skip => simp [stepFails, hx] at hb
    | error => simp [registerLoop, hx]
    | name n =>
      simp only [stepFails, hx, Bool.not_eq_true'] at hb
      simp [registerLoop, hx, hb]
  | cons s rest ih =>
    intro acc hall
    simp only [List.all_cons, Bool.and_eq_true] at hall
    obtain ⟨hs, hrest⟩ := hall
    rw [List.cons_append]
    cases hx : extractSchemaName s with
    | error => simp [stepSucceeds, hx] at hs
    | skip =>
      simp only [registerLoop, hx]
      rw [ih acc hrest]
      simp [registeredName, hx]
    | name n =>
      simp only [stepSucceeds, hx] at hs
      simp only [registerLoop, hx, hs, if_true]
      rw [ih (acc ++ [n]) hrest]
      simp [registeredName, hx]

/-- C9: `register_schema_resources` swallows every exception its body can
raise (its result is the body's registration table with no escaping
exception, whatever the discovery outcome and whatever
`mcp.add_resource` does); and when the loop fails partway — every record
of `xs` processed successfully, then record `b` raises during name
extraction or resource registration — the names registered from `xs`
remain in place and the remaining records `ys` are never processed (the
result does not depend on `ys`). -/
theorem register_schema_resources_exception_safety (findOutcome : ClientOutcome Json)
    (addOk : Json → Bool) (xs ys : List Json) (b : Json) :
    (register_schema_resources findOutcome addOk).2 = none ∧
    (register_schema_resources findOutcome addOk = ((registerBody findOutcome addOk).1, none)) ∧
    (xs.all (stepSucceeds addOk) = true → stepFails addOk b = true →
      (register_schema_resources (.ok (.arr (xs ++ b :: ys))) addOk).1 =
        xs.filterMap registeredName) := by
  refine ⟨rfl, rfl, fun hall hb => ?_⟩
  show (registerLoop addOk (xs ++ b :: ys) []).1 = xs.filterMap registeredName
  simpa using registerLoop_abort addOk b hb ys xs [] hall

theorem register_schema_resources_exception_safety_witness :
    (register_schema_resources
      (.ok (.arr [Json.obj [("content", Json.obj [("name", Json.str "User")])],
                  Json.num 1,
                  Json.obj [("content", Json.obj [("name", Json.str "X")])]]))
      (fun _ => true)).1 = [Json.str "User"] := by
  have h := (register_schema_resources_exception_safety (.ok (.arr []))
    (fun _ => true) [Json.obj [("content", Json.obj [("name", Json.str "User")])]]
    [Json.obj [("content", Json.obj [("name", Json.str "X")])]] (Json.num 1)).2.2 rfl rfl
  exact h

lemma decodeObjs_map_obj (ps : List JsonObj) : decodeObjs (ps.map Json.obj) = some ps := by
  induction ps with
  | nil => rfl
  | cons p rest ih => simp [decodeObjs, ih]

lemma fromJson_toJson_payloads (i t : String) (c : JsonObj) (md a : Option JsonObj)
    (ps : List JsonObj) :
    DigitalObject.fromJson (DigitalObject.toJson ⟨i, t, c, md, a, some ps⟩) =
      ((decodeObjs (ps.map Json.obj)).map some).bind
        (fun payloads => some ⟨i, t, c, md, a, payloads⟩) := by
  cases md <;> cases a <;> rfl

lemma fromJson_toJson (o : DigitalObject) :
    DigitalObject.fromJson (DigitalObject.toJson o) = some o := by
  obtain ⟨i, t, c, md, a, pl⟩ := o
  cases pl with
  | none => cases md <;> cases a <;> rfl
  | some ps =>
    rw [fromJson_toJson_payloads, decodeObjs_map_obj]
    rfl

/-- C7: serializing a `DigitalObject` to JSON and parsing it back yields
the same six field values, and each optional field that was absent
appears in the serialized document as JSON `null`. -/
theorem digital_object_roundtrip (o : DigitalObject) :
    DigitalObject.fromJson (DigitalObject.toJson o) = some o ∧
    (o.metadata = none → lookupJsonField (DigitalObject.toJson o) "metadata" = some .null) ∧
    (o.acl = none → lookupJsonField (DigitalObject.toJson o) "acl" = some .null) ∧
    (o.payloads = none → lookupJsonField (DigitalObject.toJson o) "payloads" = some .null) := by
  refine ⟨fromJson_toJson o, fun h => ?_, fun h => ?_, fun h => ?_⟩
  · simp only [DigitalObject.toJson, h]; rfl
  · simp only [DigitalObject.toJson, h]; rfl
  · simp only [DigitalObject.toJson, h]; rfl

theorem digital_object_roundtrip_witness :
    DigitalObject.fromJson (DigitalObject.toJson
        ⟨"people/john", "Person", [("name", Json.str "John")], none, none,
         some [[("name", Json.str "photo"), ("size", Json.num 125440)]]⟩) =
      some ⟨"people/john", "Person", [("name", Json.str "John")], none, none,
            some [[("name", Json.str "photo"), ("size", Json.num 125440)]]⟩ ∧
    lookupJsonField (DigitalObject.toJson
        ⟨"people/john", "Person", [("name", Json.str "John")], none, none,
         some [[("name", Json.str "photo"), ("size", Json.num 125440)]]⟩) "metadata" =
      some .null :=
  ⟨(digital_object_roundtrip _).1, (digital_object_roundtrip _).2.1 rfl⟩

/-- C8 (amended): a configuration value is accepted exactly when its
uppercased, whitespace-stripped form is one of
DEBUG/INFO/WARNING/ERROR/CRITICAL (and it is normalized to that form);
every other value is rejected with a validation error; in particular
every value literally in the enumeration is accepted unchanged. -/
theorem validate_log_level_normalized (v : String) :
    (pyStrip (pyUpper v) ∈ validLogLevels → validate_log_level v = .ok (pyStrip (pyUpper v))) ∧
    (pyStrip (pyUpper v) ∉ validLogLevels → ∃ m, validate_log_level v = .error m) ∧
    (∀ l ∈ validLogLevels, validate_log_level l = .ok l) := by
  refine ⟨fun h => ?_, fun h => ?_, fun l hl => ?_⟩
  · simp only [validate_log_level, if_pos h]
  · simp only [validate_log_level, if_neg h]
    exact ⟨_, rfl⟩
  · simp only [validLogLevels, List.mem_cons, List.not_mem_nil, or_false] at hl
    rcases hl with rfl | rfl | rfl | rfl | rfl <;> rfl

theorem validate_log_level_normalized_witness :
    validate_log_level "WARNING" = .ok "WARNING" :=
  (validate_log_level_normalized "x").2.2 "WARNING" (by decide)

/-- C8 counterexample: `"debug"` is not one of the enumerated values
`DEBUG|INFO|WARNING|ERROR|CRITICAL`, yet configuration construction does
not fail on it — the validator uppercases the value first and accepts it
as `DEBUG`. -/
theorem validate_log_level_lowercase_accepted :
    validate_log_level "debug" = .ok "DEBUG" ∧ "debug" ∉ validLogLevels :=
  ⟨rfl, by decide⟩
